import Mathlib

/-!
Verification of the Text-To-QR Flask application (src/app.py).

The development shallowly embeds the glue logic of app.py:

* `pyStrip`, `pyLower` model the Python string methods strip and lower
  (on the ASCII whitespace / letter range, which is all the app uses);
* `ByteBuffer` models an in-memory io byte stream with a read position;
* `QRLib` models the external qrcode library through its documented
  interface: an opaque PNG encoder together with its contract (output
  carries the PNG signature, and decoding recovers the payload);
* `generate_qr_code` embeds the encoder-adapter function of app.py;
* `home` embeds the POST/GET route handler; its second component records
  the list of payloads passed to the encoder adapter, so that claims about
  the adapter not being invoked are expressible;
* `is_truthy`, `debug_mode`, `host`, `port` embed the configuration code.
-/

set_option maxRecDepth 40000

namespace TextToQR

/-- The eight-byte PNG file signature. -/
def pngSignature : List Nat := [137, 80, 78, 71, 13, 10, 26, 10]

/-- The ASCII whitespace characters removed by the Python method strip
(space, tab, newline, carriage return, vertical tab, form feed). -/
def isPySpace (c : Char) : Bool :=
  c == ' ' || c == '\t' || c == '\n' || c == '\r' || c == '\x0b' || c == '\x0c'

/-- Python str.strip(): remove leading and trailing whitespace. -/
def pyStrip (s : String) : String :=
  String.mk (List.rdropWhile isPySpace (List.dropWhile isPySpace s.data))

/-- Python str.lower() on the ASCII range. -/
def pyLower (s : String) : String :=
  String.mk (s.data.map Char.toLower)

/-- An in-memory byte stream with a read/write position, modelling
io.BytesIO from the Python standard library. -/
structure ByteBuffer where
  data : List Nat
  pos : Nat
  deriving DecidableEq

/-- The seek method of a byte stream: move the position. -/
def ByteBuffer.seek (b : ByteBuffer) (n : Nat) : ByteBuffer :=
  { b with pos := n }

/-- Writing bytes to the stream appends them and advances the position,
modelling the image save call writing the PNG into the buffer. -/
def ByteBuffer.write (b : ByteBuffer) (bs : List Nat) : ByteBuffer :=
  { data := b.data ++ bs, pos := b.pos + bs.length }

/-- The external QR library (an external collaborator of the repository),
modelled through its documented interface.  `encodePng` collapses the
pipeline QRCode(version, box_size, border) / add_data / make(fit) /
make_image(fill, back) / save PNG into one function from the parameters and
the payload to PNG bytes.  The contract fields record what the library
documents: the output is a PNG (it starts with the PNG signature) and a QR
decoder recovers exactly the payload that was encoded. -/
structure QRLib where
  encodePng : Nat → Nat → Nat → Bool → String → String → String → List Nat
  decode : List Nat → Option String
  encode_starts_with_png_signature :
    ∀ version boxSize border fit fill back payload,
      (encodePng version boxSize border fit fill back payload).take 8 = pngSignature
  decode_encode :
    ∀ version boxSize border fit fill back payload,
      decode (encodePng version boxSize border fit fill back payload) = some payload

/-- Embedding of generate_qr_code (src/app.py lines 45 to 67):
build the QR object with version 1, box_size 10, border 5, add the stripped
data, make with fit, render black on white, save the PNG into a fresh
in-memory buffer and rewind the buffer to its start. -/
def generate_qr_code (lib : QRLib) (data : String) : ByteBuffer :=
  let png := lib.encodePng 1 10 5 true "black" "white" (pyStrip data)
  let buffer : ByteBuffer := { data := [], pos := 0 }
  let buffer := buffer.write png
  buffer.seek 0

/-- Embedding of is_truthy (src/app.py lines 70 to 72): membership of the
lowercased value in the truthy set. -/
def is_truthy (value : String) : Bool :=
  decide (pyLower value ∈ (["true", "1", "t", "yes", "y"] : List String))

/-- request.form.get(key, default): first binding of the key in the
submitted form, or the default. -/
def formGet (form : List (String × String)) (key dflt : String) : String :=
  match form.lookup key with
  | some v => v
  | none => dflt

/-- A Flask file response as produced by send_file plus header edits. -/
structure FileResponse where
  status : Nat
  mimetype : String
  asAttachment : Bool
  downloadName : String
  headers : List (String × String)
  body : ByteBuffer
  deriving DecidableEq

/-- Embedding of flask.send_file: an HTTP 200 response streaming the given
buffer with the given mimetype and download name, initially without extra
headers. -/
def send_file (stream : ByteBuffer) (mimetype : String) (asAttachment : Bool)
    (downloadName : String) : FileResponse :=
  { status := 200, mimetype := mimetype, asAttachment := asAttachment,
    downloadName := downloadName, headers := [], body := stream }

/-- Setting a response header: replace any existing binding of the key. -/
def FileResponse.setHeader (r : FileResponse) (key value : String) : FileResponse :=
  { r with headers := r.headers.filter (fun kv => kv.1 != key) ++ [(key, value)] }

/-- The possible outcomes of the home route. -/
inductive HomeResult where
  | page (template : String)
  | json (status : Nat) (body : List (String × String))
  | errorPage (status : Nat) (message : String)
  | file (response : FileResponse)
  deriving DecidableEq

/-- Embedding of the home route (src/app.py lines 76 to 120).  On POST the
form field data is fetched (default empty) and stripped; an empty result
yields the 400 JSON error; a result longer than 1000 characters raises
BadRequest, which Flask renders as a 400 error page; otherwise the encoder
adapter is called on the stripped data and its buffer is returned as a PNG
attachment named qrcode.png with caching disabled.  On GET the index page
is rendered.  The second component of the result lists the payloads passed
to the encoder adapter during the request. -/
def home (lib : QRLib) (method : String) (form : List (String × String)) :
    HomeResult × List String :=
  if method = "POST" then
    let data := pyStrip (formGet form "data" "")
    if data = "" then
      (HomeResult.json 400 [("error", "No text provided for QR generation.")], [])
    else if data.length > 1000 then
      (HomeResult.errorPage 400
        "Input too long. Please limit text to 1000 characters.", [])
    else
      let qr_stream := generate_qr_code lib data
      let response := send_file qr_stream "image/png" true "qrcode.png"
      let response := response.setHeader "Cache-Control" "no-store"
      (HomeResult.file response, [data])
  else
    (HomeResult.page "index.html", [])

/-- os.getenv(key, default) over an explicit environment. -/
def getenv (env : List (String × String)) (key dflt : String) : String :=
  match env.lookup key with
  | some v => v
  | none => dflt

/-- Embedding of the debug_mode assignment (src/app.py line 151). -/
def debug_mode (env : List (String × String)) : Bool :=
  is_truthy (getenv env "IS_DEBUG" "False")

/-- Embedding of the host assignment (src/app.py line 152). -/
def host (env : List (String × String)) : String :=
  getenv env "FLASK_RUN_HOST" "0.0.0.0"

/-- Python int() on a decimal string: optional sign and digits, with
surrounding whitespace allowed; none models the ValueError. -/
def pyInt (s : String) : Option Int :=
  let digitsVal : List Char → Nat :=
    fun ds => ds.foldl (fun acc c => acc * 10 + (c.toNat - 48)) 0
  match (pyStrip s).data with
  | [] => none
  | '-' :: ds =>
    if ds ≠ [] ∧ ds.all Char.isDigit then some (-(digitsVal ds : Int)) else none
  | '+' :: ds =>
    if ds ≠ [] ∧ ds.all Char.isDigit then some (digitsVal ds : Int) else none
  | ds =>
    if ds.all Char.isDigit then some (digitsVal ds : Int) else none

/-- Embedding of the port assignment (src/app.py line 153): when the
variable is unset, os.getenv returns the integer default 5000 unchanged and
int() leaves it alone; when it is set, the string is parsed. -/
def port (env : List (String × String)) : Option Int :=
  match env.lookup "FLASK_RUN_PORT" with
  | none => some 5000
  | some s => pyInt s

/-- A concrete instance of the library interface used to evaluate the
theorems on closed inputs: it encodes the payload as the PNG signature
followed by the code points of the payload. -/
def toyEncodePng (_version _boxSize _border : Nat) (_fit : Bool)
    (_fill _back : String) (payload : String) : List Nat :=
  pngSignature ++ payload.data.map Char.toNat

/-- Decoder matching `toyEncodePng`. -/
def toyDecode (bs : List Nat) : Option String :=
  some (String.mk ((bs.drop 8).map (fun n => Char.ofNat n)))

/-- The concrete library instance, with its contract proved. -/
def toyLib : QRLib where
  encodePng := toyEncodePng
  decode := toyDecode
  encode_starts_with_png_signature := by
    intro version boxSize border fit fill back payload
    simp [toyEncodePng, pngSignature]
  decode_encode := by
    intro version boxSize border fit fill back payload
    have hd : (toyEncodePng version boxSize border fit fill back payload).drop 8
        = payload.data.map Char.toNat := rfl
    simp only [toyDecode, hd, List.map_map]
    have h : List.map ((fun n => Char.ofNat n) ∘ Char.toNat) payload.data
        = payload.data := by
      simp [Function.comp_def]
    rw [h]

/-- A 1001-character input with no whitespace. -/
def longInput1001 : String := String.mk (List.replicate 1001 'a')

/-- A 1001-character input that is all whitespace. -/
def spaces1001 : String := String.mk (List.replicate 1001 ' ')

/-- A 1001-character input whose stripped form is a single character. -/
def padded1001 : String := String.mk ('a' :: List.replicate 1000 ' ')

/-- A list with its leading run of p removed, then its trailing run of p
removed, has no leading run of p left: dropping again changes nothing. -/
theorem dropWhile_after_strip {α : Type} (p : α → Bool) (l : List α) :
    List.dropWhile p (List.rdropWhile p (List.dropWhile p l))
      = List.rdropWhile p (List.dropWhile p l) := by
  rw [List.dropWhile_eq_self_iff]
  intro hl
  have hpre : List.rdropWhile p (List.dropWhile p l) <+: List.dropWhile p l :=
    List.rdropWhile_prefix p (List.dropWhile p l)
  have hlen : 0 < (List.dropWhile p l).length := lt_of_lt_of_le hl hpre.length_le
  have hget : (List.rdropWhile p (List.dropWhile p l)).get ⟨0, hl⟩
      = (List.dropWhile p l).get ⟨0, hlen⟩ := by
    simpa using hpre.getElem hl
  rw [hget]
  exact List.dropWhile_get_zero_not p l hlen

/-- Stripping both ends of a list is idempotent. -/
theorem stripList_idem {α : Type} (p : α → Bool) (l : List α) :
    List.rdropWhile p (List.dropWhile p (List.rdropWhile p (List.dropWhile p l)))
      = List.rdropWhile p (List.dropWhile p l) := by
  rw [dropWhile_after_strip, List.rdropWhile_idempotent]

/-- The Python strip operation is idempotent. -/
theorem pyStrip_idem (s : String) : pyStrip (pyStrip s) = pyStrip s := by
  show String.mk (List.rdropWhile isPySpace (List.dropWhile isPySpace
        (List.rdropWhile isPySpace (List.dropWhile isPySpace s.data))))
      = String.mk (List.rdropWhile isPySpace (List.dropWhile isPySpace s.data))
  exact congrArg String.mk (stripList_idem isPySpace s.data)

/-- C1: for every form submission whose data field, after trimming, is
non-empty and at most 1000 characters long, the POST handler invokes the
encoder adapter with the trimmed value and returns an HTTP 200 response
delivering the PNG buffer of the adapter as a downloadable attachment named
qrcode.png. -/
theorem home_post_valid_returns_png_attachment (lib : QRLib)
    (form : List (String × String))
    (hne : pyStrip (formGet form "data" "") ≠ "")
    (hlen : (pyStrip (formGet form "data" "")).length ≤ 1000) :
    home lib "POST" form =
      (HomeResult.file
        { status := 200, mimetype := "image/png", asAttachment := true,
          downloadName := "qrcode.png",
          headers := [("Cache-Control", "no-store")],
          body := generate_qr_code lib (pyStrip (formGet form "data" "")) },
       [pyStrip (formGet form "data" "")]) := by
  have hlt : ¬(pyStrip (formGet form "data" "")).length > 1000 := by omega
  simp [home, hne, hlt, send_file, FileResponse.setHeader]

/-- Witness for C1 on the concrete submission data = " hello ". -/
theorem home_post_valid_returns_png_attachment_witness :
    home toyLib "POST" [("data", " hello ")] =
      (HomeResult.file
        { status := 200, mimetype := "image/png", asAttachment := true,
          downloadName := "qrcode.png",
          headers := [("Cache-Control", "no-store")],
          body := generate_qr_code toyLib
            (pyStrip (formGet [("data", " hello ")] "data" "")) },
       [pyStrip (formGet [("data", " hello ")] "data" "")]) :=
  home_post_valid_returns_png_attachment toyLib [("data", " hello ")]
    (by decide) (by decide)

/-- C2: when the data field is absent, or blank after trimming, the POST
handler returns HTTP 400 with a JSON body containing an error key, and the
encoder adapter is not invoked (the call list is empty). -/
theorem home_post_blank_returns_json_error (lib : QRLib)
    (form : List (String × String))
    (h : pyStrip (formGet form "data" "") = "") :
    ∃ body, home lib "POST" form = (HomeResult.json 400 body, []) ∧
      (body.lookup "error").isSome = true := by
  refine ⟨[("error", "No text provided for QR generation.")], ?_, rfl⟩
  simp [home, h]

/-- Witness for C2 on a form without the data field at all. -/
theorem home_post_blank_returns_json_error_witness :
    ∃ body, home toyLib "POST" [] = (HomeResult.json 400 body, []) ∧
      (body.lookup "error").isSome = true :=
  home_post_blank_returns_json_error toyLib [] (by decide)

/-- C3: for a non-blank trimmed input, the handler answers with the plain
400 error page (not the JSON payload) and no adapter call exactly when the
trimmed length exceeds 1000, and with an HTTP 200 file response when the
trimmed length is at most 1000. -/
theorem home_post_length_limit_boundary (lib : QRLib)
    (form : List (String × String))
    (hne : pyStrip (formGet form "data" "") ≠ "") :
    ((pyStrip (formGet form "data" "")).length > 1000 →
      home lib "POST" form =
        (HomeResult.errorPage 400
          "Input too long. Please limit text to 1000 characters.", [])) ∧
    ((pyStrip (formGet form "data" "")).length ≤ 1000 →
      ∃ r, home lib "POST" form =
          (HomeResult.file r, [pyStrip (formGet form "data" "")]) ∧
        r.status = 200) := by
  constructor
  · intro hlong
    simp [home, hne, hlong]
  · intro hle
    have hlt : ¬(pyStrip (formGet form "data" "")).length > 1000 := by omega
    refine ⟨(send_file (generate_qr_code lib (pyStrip (formGet form "data" "")))
      "image/png" true "qrcode.png").setHeader "Cache-Control" "no-store", ?_, rfl⟩
    simp [home, hne, hlt]

/-- Witness for C3 on a concrete 1001-character input, which hits the
plain 400 error page. -/
theorem home_post_length_limit_boundary_witness :
    longInput1001.length = 1001 ∧
      home toyLib "POST" [("data", longInput1001)] =
        (HomeResult.errorPage 400
          "Input too long. Please limit text to 1000 characters.", []) :=
  ⟨by decide,
   (home_post_length_limit_boundary toyLib [("data", longInput1001)]
      (by decide)).1 (by decide)⟩

/-- C4: every file response produced by the home route carries the header
Cache-Control with value no-store. -/
theorem home_success_response_has_no_store_cache_control (lib : QRLib)
    (method : String) (form : List (String × String)) (r : FileResponse)
    (h : (home lib method form).1 = HomeResult.file r) :
    r.headers.lookup "Cache-Control" = some "no-store" := by
  by_cases hm : method = "POST"
  · subst hm
    by_cases hempty : pyStrip (formGet form "data" "") = ""
    · simp [home, hempty] at h
    · by_cases hlong : (pyStrip (formGet form "data" "")).length > 1000
      · simp [home, hempty, hlong] at h
      · simp [home, hempty, hlong, send_file, FileResponse.setHeader] at h
        rw [← h]
        rfl
  · simp [home, hm] at h

/-- Witness for C4 on the concrete submission data = "x". -/
theorem home_success_response_has_no_store_cache_control_witness :
    ({ status := 200, mimetype := "image/png", asAttachment := true,
       downloadName := "qrcode.png",
       headers := [("Cache-Control", "no-store")],
       body := { data := [137, 80, 78, 71, 13, 10, 26, 10, 120], pos := 0 } } :
      FileResponse).headers.lookup "Cache-Control" = some "no-store" :=
  home_success_response_has_no_store_cache_control toyLib "POST" [("data", "x")]
    { status := 200, mimetype := "image/png", asAttachment := true,
      downloadName := "qrcode.png",
      headers := [("Cache-Control", "no-store")],
      body := { data := [137, 80, 78, 71, 13, 10, 26, 10, 120], pos := 0 } }
    (by decide)

/-- C5: for every non-empty input string, the encoder adapter returns a
buffer whose bytes start with the PNG signature and whose read position is
at the start. -/
theorem generate_qr_code_emits_png_rewound (lib : QRLib) (s : String)
    (_h : s ≠ "") :
    (generate_qr_code lib s).data.take 8 = pngSignature ∧
      (generate_qr_code lib s).pos = 0 := by
  constructor
  · have := lib.encode_starts_with_png_signature 1 10 5 true "black" "white"
      (pyStrip s)
    simpa [generate_qr_code, ByteBuffer.write, ByteBuffer.seek] using this
  · rfl

/-- Witness for C5 on the concrete input "hello". -/
theorem generate_qr_code_emits_png_rewound_witness :
    (generate_qr_code toyLib "hello").data.take 8 = pngSignature ∧
      (generate_qr_code toyLib "hello").pos = 0 :=
  generate_qr_code_emits_png_rewound toyLib "hello" (by decide)

/-- C6: is_truthy holds exactly when the lowercased value is one of the
five truthy forms. -/
theorem is_truthy_iff_lower_in_truthy_forms (v : String) :
    is_truthy v = true ↔
      (pyLower v = "true" ∨ pyLower v = "1" ∨ pyLower v = "t" ∨
       pyLower v = "yes" ∨ pyLower v = "y") := by
  simp [is_truthy]

/-- C7: with the three environment variables unset, the startup
configuration takes its defaults: debug off (the fallback "False" is not a
truthy form), host 0.0.0.0, port 5000. -/
theorem startup_defaults_when_env_unset (env : List (String × String))
    (h1 : env.lookup "IS_DEBUG" = none)
    (h2 : env.lookup "FLASK_RUN_HOST" = none)
    (h3 : env.lookup "FLASK_RUN_PORT" = none) :
    debug_mode env = false ∧ host env = "0.0.0.0" ∧ port env = some 5000 := by
  refine ⟨?_, ?_, ?_⟩
  · simp [debug_mode, getenv, h1]
    decide
  · simp [host, getenv, h2]
  · simp [port, h3]

/-- Witness for C7 on the empty environment. -/
theorem startup_defaults_when_env_unset_witness :
    debug_mode [] = false ∧ host [] = "0.0.0.0" ∧ port [] = some 5000 :=
  startup_defaults_when_env_unset [] rfl rfl rfl

/-- C8 counterexample: the input " a " is valid (non-blank after trimming
and short), yet decoding the encoded image does not return " a ": the
adapter strips its argument, so the round trip returns the trimmed string
instead of the original one. -/
theorem roundtrip_fails_on_padded_valid_input :
    pyStrip " a " ≠ "" ∧ (" a ").length ≤ 1000 ∧
      toyLib.decode (generate_qr_code toyLib " a ").data ≠ some " a " := by
  decide

/-- C8 amended: for every input string whose trimmed form is non-empty,
encoding through the adapter and then decoding yields the trimmed input; in
particular the original string is recovered whenever it carries no
surrounding whitespace. -/
theorem generate_qr_code_roundtrip_yields_trimmed (lib : QRLib) (s : String)
    (_hvalid : pyStrip s ≠ "") :
    lib.decode (generate_qr_code lib s).data = some (pyStrip s) := by
  have := lib.decode_encode 1 10 5 true "black" "white" (pyStrip s)
  simpa [generate_qr_code, ByteBuffer.write, ByteBuffer.seek] using this

/-- Witness for the amended C8 on the concrete input "hi". -/
theorem generate_qr_code_roundtrip_yields_trimmed_witness :
    toyLib.decode (generate_qr_code toyLib "hi").data = some (pyStrip "hi") :=
  generate_qr_code_roundtrip_yields_trimmed toyLib "hi" (by decide)

/-- C9: the adapter strips its argument internally, so feeding it a string
and feeding it the trimmed string produce the same buffer. -/
theorem generate_qr_code_strip_invariant (lib : QRLib) (s : String) :
    generate_qr_code lib (pyStrip s) = generate_qr_code lib s := by
  unfold generate_qr_code
  rw [pyStrip_idem]

/-- C10: the emptiness check precedes the length check: whenever the data
field trims to the empty string the JSON empty-input error is returned,
whatever the raw length; and the length limit is measured on the trimmed
value, so a long raw value whose trimmed form is short still succeeds. -/
theorem home_empty_check_precedes_length_check (lib : QRLib)
    (form : List (String × String)) :
    (pyStrip (formGet form "data" "") = "" →
      home lib "POST" form =
        (HomeResult.json 400
          [("error", "No text provided for QR generation.")], [])) ∧
    (pyStrip (formGet form "data" "") ≠ "" →
      (pyStrip (formGet form "data" "")).length ≤ 1000 →
      home lib "POST" form =
        (HomeResult.file
          ((send_file (generate_qr_code lib (pyStrip (formGet form "data" "")))
            "image/png" true "qrcode.png").setHeader "Cache-Control" "no-store"),
         [pyStrip (formGet form "data" "")])) := by
  constructor
  · intro h
    simp [home, h]
  · intro hne hle
    have hlt : ¬(pyStrip (formGet form "data" "")).length > 1000 := by omega
    simp [home, hne, hlt]

/-- Witness for C10: a 1001-character all-whitespace input still gets the
JSON empty-input error, and a 1001-character input that trims to one
character still succeeds. -/
theorem home_empty_check_precedes_length_check_witness :
    spaces1001.length = 1001 ∧
    home toyLib "POST" [("data", spaces1001)] =
      (HomeResult.json 400
        [("error", "No text provided for QR generation.")], []) ∧
    padded1001.length = 1001 ∧
    home toyLib "POST" [("data", padded1001)] =
      (HomeResult.file
        ((send_file (generate_qr_code toyLib
            (pyStrip (formGet [("data", padded1001)] "data" "")))
          "image/png" true "qrcode.png").setHeader "Cache-Control" "no-store"),
       [pyStrip (formGet [("data", padded1001)] "data" "")]) :=
  ⟨by decide,
   (home_empty_check_precedes_length_check toyLib [("data", spaces1001)]).1
     (by decide),
   by decide,
   (home_empty_check_precedes_length_check toyLib [("data", padded1001)]).2
     (by decide) (by decide)⟩

end TextToQR
